import Mathlib

/-!
Verification of the TrackFlow analytics engine (backend/server.js, both the
SQLite and the PostgreSQL revisions, and backend/tracking-script.js) against
its natural-language specification.  The JavaScript is shallowly embedded:
SQL aggregation queries become pure list pipelines over an explicit database
value, numbers stored in REAL columns become rationals, DATETIME instants
become natural numbers (seconds), and `DATE(timestamp)` becomes division by
86400.
-/

/-- JavaScript `Math.round`: rounds half toward positive infinity. -/
def jsRound (q : ℚ) : ℤ := ⌊q + 1/2⌋

/-- A row of the `sites` table (`user_id` is nullable in both schemas). -/
structure Site where
  id : String
  name : String
  domain : String
  user_id : Option String
deriving DecidableEq

/-- A row of the `events` table (the columns the analytics queries touch). -/
structure Event where
  site_id : String
  visitor_id : String
  session_id : String
  event_type : String
  timestamp : ℕ
  path : String
  title : String
  source : Option String
  medium : Option String
  device_type : Option String
  country : Option String
  event_name : Option String
deriving DecidableEq

/-- A row of the `payments` table; `visitor_id` is nullable. -/
structure Payment where
  id : String
  site_id : String
  visitor_id : Option String
  amount : ℚ
  currency : String
  created_at : ℕ
deriving DecidableEq

/-- The persistent state both server revisions query. -/
structure DB where
  sites : List Site
  events : List Event
  payments : List Payment
deriving DecidableEq

/-- The expression `const days = period === "7d" ? 7 : period === "90d" ? 90 : 30`
with the destructuring default `period = "30d"` for an absent query parameter.  This
expression is repeated verbatim in every aggregation endpoint of both
revisions. -/
def parsePeriod (period : Option String) : ℕ :=
  let p := period.getD "30d"
  if p = "7d" then 7 else if p = "90d" then 90 else 30

/-- Model of `DATE(timestamp)`: the calendar-day index of an instant. -/
def dateOf (t : ℕ) : ℕ := t / 86400

/-- The shared WHERE clause of the pageview aggregations:
`site_id = ? AND event_type = "pageview" AND timestamp >= ?`. -/
def pageviewMatch (siteId : String) (start : ℕ) (e : Event) : Bool :=
  decide (e.site_id = siteId ∧ e.event_type = "pageview" ∧ start ≤ e.timestamp)

/-- The rows the pageview aggregations range over. -/
def pageviewsIn (events : List Event) (siteId : String) (start : ℕ) : List Event :=
  events.filter (pageviewMatch siteId start)

/-- Pageview rows of the previous period: `timestamp >= ? AND timestamp < ?`. -/
def pageviewsBetween (events : List Event) (siteId : String) (start stop : ℕ) : List Event :=
  events.filter (fun e =>
    decide (e.site_id = siteId ∧ e.event_type = "pageview" ∧ start ≤ e.timestamp ∧ e.timestamp < stop))

/-- SQL `COUNT(DISTINCT col)`. -/
def countDistinct {α : Type} [DecidableEq α] (l : List α) : ℕ := l.dedup.length

/-- Result row of the overview stats SELECT. -/
structure StatsRow where
  unique_visitors : ℕ
  total_pageviews : ℕ
  total_sessions : ℕ
  active_days : ℕ
deriving DecidableEq

/-- The overview stats SELECT of `/api/sites/:siteId/stats`. -/
def statsQuery (events : List Event) (siteId : String) (start : ℕ) : StatsRow :=
  let evs := pageviewsIn events siteId start
  { unique_visitors := countDistinct (evs.map Event.visitor_id)
    total_pageviews := evs.length
    total_sessions := countDistinct (evs.map Event.session_id)
    active_days := countDistinct (evs.map (fun e => dateOf e.timestamp)) }

/-- The previous-period SELECT of the SQLite stats endpoint. -/
def prevStatsQuery (events : List Event) (siteId : String) (start stop : ℕ) : StatsRow :=
  let evs := pageviewsBetween events siteId start stop
  { unique_visitors := countDistinct (evs.map Event.visitor_id)
    total_pageviews := evs.length
    total_sessions := countDistinct (evs.map Event.session_id)
    active_days := 0 }

/-- Helper `calcChange` from the SQLite stats endpoint:
`if (!previous || previous === 0) return 0;
 return Math.round(((current - previous) / previous) * 100 * 10) / 10;` -/
def calcChange (current previous : ℚ) : ℚ :=
  if previous = 0 then 0
  else (jsRound ((current - previous) / previous * 100 * 10) : ℚ) / 10

/-- Rounding to one decimal, written from the words of the spec: `round((current - previous) /
previous * 100, 1)`, and 0 when previous is 0. -/
def roundTo1 (q : ℚ) : ℚ := (jsRound (q * 10) : ℚ) / 10

/-- The delta of the spec, written from its words (§4.3). -/
def deltaSpec (current previous : ℚ) : ℚ :=
  if previous = 0 then 0 else roundTo1 ((current - previous) / previous * 100)

/-- Insertion step of the sort used to model SQL `ORDER BY`. -/
def insertSorted {α : Type} (le : α → α → Bool) (a : α) : List α → List α
  | [] => [a]
  | b :: l => if le a b then a :: b :: l else b :: insertSorted le a l

/-- Insertion sort, modelling SQL `ORDER BY`. -/
def sortBy {α : Type} (le : α → α → Bool) : List α → List α
  | [] => []
  | a :: l => insertSorted le a (sortBy le l)

/-- The per-visitor/pageview/session changes object of the stats response. -/
structure Changes where
  visitors : ℚ
  pageviews : ℚ
  sessions : ℚ
deriving DecidableEq

/-- The JSON body of the SQLite `/api/sites/:siteId/stats` response. -/
structure StatsResponse where
  unique_visitors : ℕ
  total_pageviews : ℕ
  total_sessions : ℕ
  active_days : ℕ
  changes : Changes
deriving DecidableEq

/-- GET `/api/sites/:siteId/stats`, SQLite revision: no authentication, no
ownership check; the window is the trailing `days` period, the previous
window the `days` before it. -/
def sqliteStats (db : DB) (siteId : String) (period : Option String) (now : ℕ) : StatsResponse :=
  let days := parsePeriod period
  let start := now - days * 86400
  let prevStart := start - days * 86400
  let s := statsQuery db.events siteId start
  let p := prevStatsQuery db.events siteId prevStart start
  { unique_visitors := s.unique_visitors
    total_pageviews := s.total_pageviews
    total_sessions := s.total_sessions
    active_days := s.active_days
    changes :=
      { visitors := calcChange (s.unique_visitors : ℚ) (p.unique_visitors : ℚ)
        pageviews := calcChange (s.total_pageviews : ℚ) (p.total_pageviews : ℚ)
        sessions := calcChange (s.total_sessions : ℚ) (p.total_sessions : ℚ) } }

/-- One row of the SQLite timeseries response. -/
structure TSRow where
  date : ℕ
  visitors : ℕ
  pageviews : ℕ
  sessions : ℕ
deriving DecidableEq

/-- GET `/api/sites/:siteId/timeseries`, SQLite revision: `GROUP BY
DATE(timestamp) ORDER BY date ASC` over the existing pageview rows — one
output row per date that actually has at least one event, and no others. -/
def sqliteTimeseries (db : DB) (siteId : String) (period : Option String) (now : ℕ) : List TSRow :=
  let days := parsePeriod period
  let start := now - days * 86400
  let evs := pageviewsIn db.events siteId start
  let dates := sortBy (fun a b => decide (a ≤ b)) ((evs.map (fun e => dateOf e.timestamp)).dedup)
  dates.map (fun d =>
    let grp := evs.filter (fun e => decide (dateOf e.timestamp = d))
    { date := d
      visitors := countDistinct (grp.map Event.visitor_id)
      pageviews := grp.length
      sessions := countDistinct (grp.map Event.session_id) })

/-- One row of the revenue-by-source result. -/
structure SourceRevenue where
  source : Option String
  revenue : ℚ
  payments : ℕ
deriving DecidableEq

/-- The join rows one payment contributes under
`LEFT JOIN events e ON p.visitor_id = e.visitor_id AND p.site_id = e.site_id`:
when `p.visitor_id` is NULL the join predicate never holds and when no event
row matches, the payment still yields one row whose event columns are NULL;
otherwise it yields one row per matching event row. -/
def paymentJoinSources (events : List Event) (p : Payment) : List (Option String) :=
  match p.visitor_id with
  | none => [none]
  | some v =>
    let hits := events.filter (fun e => decide (e.visitor_id = v ∧ e.site_id = p.site_id))
    if hits.isEmpty then [none] else hits.map Event.source

/-- The `(e.source, p.amount)` rows produced by the LEFT JOIN of the
windowed payments of GET `/api/sites/:siteId/revenue` with the events of
the same `(site_id, visitor_id)`. -/
def revenueJoinRows (events : List Event) (payments : List Payment)
    (siteId : String) (start : ℕ) : List (Option String × ℚ) :=
  (payments.filter (fun p => decide (p.site_id = siteId ∧ start ≤ p.created_at))).flatMap
    (fun p => (paymentJoinSources events p).map (fun s => (s, p.amount)))

/-- The groups of the `bySource` query of GET `/api/sites/:siteId/revenue`
(identical in both revisions), before `ORDER BY`:
`GROUP BY e.source`, `SUM(p.amount)`, `COUNT(p.id)`. -/
def revenueGroups (events : List Event) (payments : List Payment)
    (siteId : String) (start : ℕ) : List SourceRevenue :=
  let rows := revenueJoinRows events payments siteId start
  ((rows.map Prod.fst).dedup).map (fun k =>
    let grp := rows.filter (fun r => decide (r.1 = k))
    { source := k
      revenue := (grp.map Prod.snd).sum
      payments := grp.length : SourceRevenue })

/-- The full `bySource` query: the groups, `ORDER BY revenue DESC`. -/
def revenueBySource (events : List Event) (payments : List Payment)
    (siteId : String) (start : ℕ) : List SourceRevenue :=
  sortBy (fun a b => decide (b.revenue ≤ a.revenue)) (revenueGroups events payments siteId start)

/-- One row of the per-currency revenue stats query. -/
structure CurrencyStats where
  total_revenue : ℚ
  total_payments : ℕ
  avg_payment : ℚ
  currency : String
deriving DecidableEq

/-- The per-currency stats query of GET `/api/sites/:siteId/revenue`. -/
def revenueStats (payments : List Payment) (siteId : String) (start : ℕ) : List CurrencyStats :=
  let ps := payments.filter (fun p => decide (p.site_id = siteId ∧ start ≤ p.created_at))
  let keys := (ps.map Payment.currency).dedup
  keys.map (fun c =>
    let grp := ps.filter (fun p => decide (p.currency = c))
    { total_revenue := (grp.map Payment.amount).sum
      total_payments := grp.length
      avg_payment := (grp.map Payment.amount).sum / (grp.length : ℚ)
      currency := c })

/-- The JSON body of GET `/api/sites/:siteId/revenue`. -/
structure RevenueResponse where
  stats : List CurrencyStats
  bySource : List SourceRevenue
deriving DecidableEq

/-- GET `/api/sites/:siteId/revenue`, SQLite revision (no ownership check). -/
def sqliteRevenue (db : DB) (siteId : String) (period : Option String) (now : ℕ) : RevenueResponse :=
  let days := parsePeriod period
  let start := now - days * 86400
  { stats := revenueStats db.payments siteId start
    bySource := revenueBySource db.events db.payments siteId start }

/-- One row of the top-pages result (PostgreSQL revision:
`GROUP BY path, title`). -/
structure PageRow where
  path : String
  title : String
  views : ℕ
deriving DecidableEq

/-- The top-pages query of the PostgreSQL revision:
`SELECT path, title, COUNT(*) as views ... GROUP BY path, title
 ORDER BY views DESC LIMIT $2`. -/
def pagesQuery (events : List Event) (siteId : String) (start : ℕ) (limit : ℕ) : List PageRow :=
  let evs := pageviewsIn events siteId start
  let keys := (evs.map (fun e => (e.path, e.title))).dedup
  let rows := keys.map (fun k =>
    let grp := evs.filter (fun e => decide (e.path = k.1 ∧ e.title = k.2))
    { path := k.1, title := k.2, views := grp.length : PageRow })
  (sortBy (fun a b => decide (b.views ≤ a.views)) rows).take limit

/-- One row of the traffic-sources result. -/
structure SourceRow where
  source : Option String
  medium : Option String
  visitors : ℕ
deriving DecidableEq

/-- The traffic-sources query (`GROUP BY source, medium`,
`COUNT(DISTINCT visitor_id)`, `ORDER BY visitors DESC LIMIT ?`). -/
def sourcesQuery (events : List Event) (siteId : String) (start : ℕ) (limit : ℕ) : List SourceRow :=
  let evs := pageviewsIn events siteId start
  let keys := (evs.map (fun e => (e.source, e.medium))).dedup
  let rows := keys.map (fun k =>
    let grp := evs.filter (fun e => decide (e.source = k.1 ∧ e.medium = k.2))
    { source := k.1, medium := k.2
      visitors := countDistinct (grp.map Event.visitor_id) : SourceRow })
  (sortBy (fun a b => decide (b.visitors ≤ a.visitors)) rows).take limit

/-- One row of the realtime visitors result (PostgreSQL revision). -/
structure RealtimeRow where
  visitor_id : String
  path : String
  device_type : Option String
  country : Option String
  source : Option String
  last_seen : ℕ
deriving DecidableEq

/-- The realtime response. -/
structure RealtimeResponse where
  count : ℕ
  visitors : List RealtimeRow
deriving DecidableEq

/-- The realtime query of the PostgreSQL revision: events of the last 5
minutes (any event type), grouped by
`visitor_id, path, device_type, country, source`, with `MAX(timestamp)`,
ordered by `last_seen` descending, limit 20; plus the distinct-visitor
count over the same window. -/
def realtimeQuery (events : List Event) (siteId : String) (now : ℕ) : RealtimeResponse :=
  let evs := events.filter (fun e => decide (e.site_id = siteId ∧ now - 300 ≤ e.timestamp))
  let keys := (evs.map (fun e => (e.visitor_id, e.path, e.device_type, e.country, e.source))).dedup
  let rows := keys.map (fun k =>
    let grp := evs.filter (fun e =>
      decide ((e.visitor_id, e.path, e.device_type, e.country, e.source) = k))
    { visitor_id := k.1, path := k.2.1, device_type := k.2.2.1
      country := k.2.2.2.1, source := k.2.2.2.2
      last_seen := (grp.map Event.timestamp).foldl max 0 : RealtimeRow })
  { count := countDistinct (evs.map Event.visitor_id)
    visitors := (sortBy (fun a b => decide (b.last_seen ≤ a.last_seen)) rows).take 20 }

/-- Errors surfaced by the protected PostgreSQL endpoints. -/
inductive ApiError where
  | accessDenied
deriving DecidableEq

/-- Ownership check `checkSiteAccess` of the PostgreSQL revision:
`SELECT id FROM sites WHERE id = $1 AND user_id = $2` has at least one row. -/
def checkSiteAccess (db : DB) (siteId userId : String) : Bool :=
  db.sites.any (fun s => decide (s.id = siteId ∧ s.user_id = some userId))

/-- The JSON body of the PostgreSQL `/api/sites/:siteId/stats` response: the
previous-period comparison is stubbed (`changes` hard-coded to zero). -/
structure PgStatsResponse where
  unique_visitors : ℕ
  total_pageviews : ℕ
  total_sessions : ℕ
  changes : Changes
deriving DecidableEq

/-- GET `/api/sites/:siteId/stats`, PostgreSQL revision: denies unless
`checkSiteAccess` holds for the authenticated user. -/
def pgStats (db : DB) (userId siteId : String) (period : Option String) (now : ℕ) :
    Except ApiError PgStatsResponse :=
  if checkSiteAccess db siteId userId then
    let days := parsePeriod period
    let s := statsQuery db.events siteId (now - days * 86400)
    .ok { unique_visitors := s.unique_visitors
          total_pageviews := s.total_pageviews
          total_sessions := s.total_sessions
          changes := { visitors := 0, pageviews := 0, sessions := 0 } }
  else .error .accessDenied

/-- One row of the PostgreSQL timeseries response (no sessions column). -/
structure PgTSRow where
  date : ℕ
  visitors : ℕ
  pageviews : ℕ
deriving DecidableEq

/-- GET `/api/sites/:siteId/timeseries`, PostgreSQL revision. -/
def pgTimeseries (db : DB) (userId siteId : String) (period : Option String) (now : ℕ) :
    Except ApiError (List PgTSRow) :=
  if checkSiteAccess db siteId userId then
    let days := parsePeriod period
    let evs := pageviewsIn db.events siteId (now - days * 86400)
    let dates := sortBy (fun a b => decide (a ≤ b)) ((evs.map (fun e => dateOf e.timestamp)).dedup)
    .ok (dates.map (fun d =>
      let grp := evs.filter (fun e => decide (dateOf e.timestamp = d))
      { date := d
        visitors := countDistinct (grp.map Event.visitor_id)
        pageviews := grp.length }))
  else .error .accessDenied

/-- GET `/api/sites/:siteId/pages`, PostgreSQL revision. -/
def pgPages (db : DB) (userId siteId : String) (period : Option String) (limit : ℕ) (now : ℕ) :
    Except ApiError (List PageRow) :=
  if checkSiteAccess db siteId userId then
    .ok (pagesQuery db.events siteId (now - parsePeriod period * 86400) limit)
  else .error .accessDenied

/-- GET `/api/sites/:siteId/sources`, PostgreSQL revision. -/
def pgSources (db : DB) (userId siteId : String) (period : Option String) (limit : ℕ) (now : ℕ) :
    Except ApiError (List SourceRow) :=
  if checkSiteAccess db siteId userId then
    .ok (sourcesQuery db.events siteId (now - parsePeriod period * 86400) limit)
  else .error .accessDenied

/-- GET `/api/sites/:siteId/realtime`, PostgreSQL revision. -/
def pgRealtime (db : DB) (userId siteId : String) (now : ℕ) :
    Except ApiError RealtimeResponse :=
  if checkSiteAccess db siteId userId then
    .ok (realtimeQuery db.events siteId now)
  else .error .accessDenied

/-- GET `/api/sites/:siteId/revenue`, PostgreSQL revision. -/
def pgRevenue (db : DB) (userId siteId : String) (period : Option String) (now : ℕ) :
    Except ApiError RevenueResponse :=
  if checkSiteAccess db siteId userId then
    let start := now - parsePeriod period * 86400
    .ok { stats := revenueStats db.payments siteId start
          bySource := revenueBySource db.events db.payments siteId start }
  else .error .accessDenied

/-- Outcome of POST `/collect`: HTTP 200 `{success:true}` or the caught
insert failure reported as HTTP 500 with a generic failure message. -/
inductive CollectResult where
  | success
  | failure
deriving DecidableEq

/-- POST `/collect` (both revisions): the events table declares
`FOREIGN KEY (site_id) REFERENCES sites(id)`, so the INSERT of an event
whose `site_id` matches no site row fails; the handler catches the error
and answers 500 without having written a row. -/
def collect (db : DB) (e : Event) : CollectResult × DB :=
  if db.sites.any (fun s => decide (s.id = e.site_id)) then
    (.success, { db with events := db.events ++ [e] })
  else (.failure, db)

/-- Does the character list begin with the given pattern? -/
def beginsWith : List Char → List Char → Bool
  | _, [] => true
  | [], _ :: _ => false
  | c :: cs, p :: ps => c = p && beginsWith cs ps

/-- Does the character list contain the pattern as a contiguous substring?
Models `.test` of a JavaScript regex made only of escaped-literal text. -/
def containsSub : List Char → List Char → Bool
  | [], pat => pat.isEmpty
  | c :: cs, pat => beginsWith (c :: cs) pat || containsSub cs pat

/-- Substring test on strings (the regex patterns are all lowercase and the
URL parser lowercases hostnames, which models the `/i` flag). -/
def hasSub (s pat : String) : Bool := containsSub s.data pat.data

/-- JavaScript `hostname.replace` with a plain-string pattern: removes only the first
occurrence of the pattern. -/
def replaceFirst (pat : List Char) : List Char → List Char
  | [] => []
  | c :: cs =>
    if !pat.isEmpty && beginsWith (c :: cs) pat then (c :: cs).drop pat.length
    else c :: replaceFirst pat cs

/-- The character list after the first occurrence of `://`, if any. -/
def afterScheme : List Char → Option (List Char)
  | [] => none
  | c :: cs =>
    if beginsWith (c :: cs) "://".data then some ((c :: cs).drop 3)
    else afterScheme cs

/-- Modelled from the platform URL parser invoked as `new URL(ref)` in
`getReferrer` (tracking-script.js): yields the lowercased hostname of an
absolute URL, and `none` when the constructor throws because the string has
no `scheme://host` shape. -/
def parseURLHost (s : String) : Option String :=
  match afterScheme s.data with
  | none => none
  | some rest =>
    let host := rest.takeWhile (fun c => !(c = '/' || c = '?' || c = '#' || c = ':'))
    if host.isEmpty then none else some (String.mk (host.map Char.toLower))

/-- The `{source, medium, referrer}` object produced by `getReferrer`. -/
structure SourceInfo where
  source : String
  medium : String
  referrer : Option String
deriving DecidableEq

/-- Function `getReferrer` of tracking-script.js: `document.referrer` is the empty
string when absent; otherwise the hostname (first `www.` stripped) is run
through the ordered rule chain of literal-substring regex tests, any other
hostname is a plain referral, and a referrer the URL parser rejects yields
source and medium `unknown` from the catch block. -/
def getReferrer (ref : String) : SourceInfo :=
  if ref = "" then { source := "direct", medium := "none", referrer := none }
  else
    match parseURLHost ref with
    | none => { source := "unknown", medium := "unknown", referrer := some ref }
    | some rawHost =>
      let hostname := String.mk (replaceFirst "www.".data rawHost.data)
      if hasSub hostname "facebook.com" || hasSub hostname "fb.com" then
        { source := "facebook", medium := "social", referrer := some ref }
      else if hasSub hostname "twitter.com" || hasSub hostname "x.com" || hasSub hostname "t.co" then
        { source := "twitter", medium := "social", referrer := some ref }
      else if hasSub hostname "linkedin.com" then
        { source := "linkedin", medium := "social", referrer := some ref }
      else if hasSub hostname "instagram.com" then
        { source := "instagram", medium := "social", referrer := some ref }
      else if hasSub hostname "reddit.com" then
        { source := "reddit", medium := "social", referrer := some ref }
      else if hasSub hostname "youtube.com" then
        { source := "youtube", medium := "social", referrer := some ref }
      else if hasSub hostname "tiktok.com" then
        { source := "tiktok", medium := "social", referrer := some ref }
      else if hasSub hostname "google." then
        { source := "google", medium := "organic", referrer := some ref }
      else if hasSub hostname "bing.com" then
        { source := "bing", medium := "organic", referrer := some ref }
      else if hasSub hostname "duckduckgo.com" then
        { source := "duckduckgo", medium := "organic", referrer := some ref }
      else if hasSub hostname "yahoo." then
        { source := "yahoo", medium := "organic", referrer := some ref }
      else if hasSub hostname "baidu.com" then
        { source := "baidu", medium := "organic", referrer := some ref }
      else if hasSub hostname "producthunt.com" then
        { source := "producthunt", medium := "referral", referrer := some ref }
      else if hasSub hostname "hackernews" || hasSub hostname "news.ycombinator" then
        { source := "hackernews", medium := "referral", referrer := some ref }
      else
        { source := hostname, medium := "referral", referrer := some ref }

/-- Model of `URLSearchParams.get`: first value for the key,
null when absent. -/
def queryGet (q : List (String × String)) (k : String) : Option String :=
  (q.find? (fun kv => decide (kv.1 = k))).map Prod.snd

/-- JavaScript `a || b` on nullable strings: the empty string is falsy. -/
def jsOrString (a b : Option String) : Option String :=
  match a with
  | some s => if s = "" then b else some s
  | none => b

/-- The object returned by `getUTMParams`. -/
structure UTMParams where
  utm_source : Option String
  utm_medium : Option String
  utm_campaign : Option String
  utm_term : Option String
  utm_content : Option String
  ref : Option String
deriving DecidableEq

/-- Function `getUTMParams` of tracking-script.js. -/
def getUTMParams (q : List (String × String)) : UTMParams :=
  { utm_source := queryGet q "utm_source"
    utm_medium := queryGet q "utm_medium"
    utm_campaign := queryGet q "utm_campaign"
    utm_term := queryGet q "utm_term"
    utm_content := queryGet q "utm_content"
    ref := jsOrString (queryGet q "ref") (queryGet q "via") }

/-- The event payload assembled by `sendEvent` (the fields relevant to
source classification).  The spreads `...referrer, ...utm` merge disjoint
key sets: the referrer object contributes `source`/`medium`/`referrer` and
the UTM object contributes only `utm_*`/`ref` keys. -/
structure Payload where
  site_id : String
  visitor_id : String
  session_id : String
  event_type : String
  source : String
  medium : String
  referrer : Option String
  utm_source : Option String
  utm_medium : Option String
  utm_campaign : Option String
  ref : Option String
deriving DecidableEq

/-- Function `sendEvent` of tracking-script.js, restricted to payload construction
(for events whose `eventData` argument is empty, e.g. pageviews). -/
def sendEventPayload (siteId visitorId sessionId eventType docReferrer : String)
    (search : List (String × String)) : Payload :=
  let r := getReferrer docReferrer
  let utm := getUTMParams search
  { site_id := siteId
    visitor_id := visitorId
    session_id := sessionId
    event_type := eventType
    source := r.source
    medium := r.medium
    referrer := r.referrer
    utm_source := utm.utm_source
    utm_medium := utm.utm_medium
    utm_campaign := utm.utm_campaign
    ref := utm.ref }

/-- Modelled from the spec: `FunnelStep` (§3), `{type: pageview|event,
value: string}` — the funnel analyzer itself is absent from src/ (no funnel
endpoint exists in either server revision), so §4.4 is the authority. -/
structure FunnelStep where
  type : String
  value : String
deriving DecidableEq

/-- Modelled from the spec: one output entry of the funnel analyzer,
`{step_label, count, dropoff_percent}` (§4.4). -/
structure FunnelRow where
  step_label : String
  count : ℕ
  dropoff : ℤ
deriving DecidableEq

/-- Modelled from the spec: `InvalidFunnelError` when fewer than 2 steps
are given (§4.4, §7). -/
inductive FunnelError where
  | invalidFunnel
deriving DecidableEq

/-- Modelled from the spec: the predicate of a step over one event inside the
window — a `pageview` step matches pageview events on the given path, an
`event` step matches custom events with the given name (§3, §4.4). -/
def stepMatch (start stop : ℕ) (st : FunnelStep) (e : Event) : Bool :=
  decide (start ≤ e.timestamp ∧ e.timestamp < stop) &&
    (if st.type = "pageview" then decide (e.event_type = "pageview" ∧ e.path = st.value)
     else decide (e.event_type = "event" ∧ e.event_name = some st.value))

/-- Modelled from the spec: the distinct visitors matching the predicate of
a step within the window (§4.4, step 1/2). -/
def stepVisitors (events : List Event) (start stop : ℕ) (st : FunnelStep) : Finset String :=
  ((events.filter (stepMatch start stop st)).map Event.visitor_id).toFinset

/-- Modelled from the spec: drop-off at a step,
`round((|prev| - |cur|) / |prev| * 100)`, defined as 100 when `|prev| = 0`
(§4.4, step 3 — the division-by-zero short-circuit). -/
def dropoffCalc (prev cur : ℕ) : ℤ :=
  if prev = 0 then 100 else jsRound (((prev : ℚ) - (cur : ℚ)) / (prev : ℚ) * 100)

/-- Modelled from the spec: the rows for the steps after step 0, carrying
the surviving visitor set `v` into each sequential narrowing step (§4.4,
step 2). -/
def funnelFrom (events : List Event) (start stop : ℕ) (v : Finset String) :
    List FunnelStep → List FunnelRow
  | [] => []
  | st :: rest =>
    let vi := v ∩ stepVisitors events start stop st
    { step_label := st.value, count := vi.card, dropoff := dropoffCalc v.card vi.card } ::
      funnelFrom events start stop vi rest

/-- Modelled from the spec: the funnel analyzer (§4.4).  Fails with
`InvalidFunnelError` on fewer than 2 steps; otherwise `V0` is the distinct
visitor set of step 0 (its row has dropoff 0) and each later step narrows
the surviving set. -/
def funnel (events : List Event) (start stop : ℕ) (steps : List FunnelStep) :
    Except FunnelError (List FunnelRow) :=
  match steps with
  | [] => .error .invalidFunnel
  | [_] => .error .invalidFunnel
  | st :: rest =>
    let v0 := stepVisitors events start stop st
    .ok ({ step_label := st.value, count := v0.card, dropoff := 0 } ::
      funnelFrom events start stop v0 rest)

/-- The surviving visitor set after `i` further narrowing steps, starting
from the set `v`; used to state the funnel properties. -/
def survivors (events : List Event) (start stop : ℕ) (v : Finset String) :
    List FunnelStep → ℕ → Finset String
  | _, 0 => v
  | [], _ + 1 => v
  | st :: rest, i + 1 =>
    survivors events start stop (v ∩ stepVisitors events start stop st) rest i

/-- The set `Vi` of the spec: the distinct-visitor set surviving after step `i`. -/
def funnelSet (events : List Event) (start stop : ℕ) (steps : List FunnelStep) (i : ℕ) :
    Finset String :=
  match steps with
  | [] => ∅
  | st :: rest => survivors events start stop (stepVisitors events start stop st) rest i

/-- A concrete event literal used by the concrete-input theorems. -/
def mkEvent (site vid sess : String) (t : ℕ) (p : String) (src : Option String) : Event :=
  { site_id := site, visitor_id := vid, session_id := sess, event_type := "pageview"
    timestamp := t, path := p, title := "", source := src, medium := none
    device_type := none, country := none, event_name := none }

/-- A site owned by user `u2`. -/
def exOwnedSite : Site := { id := "s1", name := "Example", domain := "example.com", user_id := some "u2" }

/-- Database for the C1 counterexample: one site owned by `u2` holding one
pageview event. -/
def c1DB : DB :=
  { sites := [exOwnedSite], events := [mkEvent "s1" "v1" "x1" 10 "/" none], payments := [] }

/-- Database for the C2 evaluation: one payment of 10 by visitor `v`, whose
events carry two different classified sources. -/
def c2DB : DB :=
  { sites := [exOwnedSite]
    events := [mkEvent "s1" "v" "x" 10 "/" (some "google"), mkEvent "s1" "v" "x" 20 "/" (some "twitter")]
    payments := [{ id := "p1", site_id := "s1", visitor_id := some "v", amount := 10, currency := "USD", created_at := 50 }] }

/-- Database for the C4 evaluation: a 7-day window with pageviews on a
single calendar day. -/
def c4DB : DB :=
  { sites := [exOwnedSite]
    events := [mkEvent "s1" "v1" "a" 10 "/" none, mkEvent "s1" "v1" "a" 20 "/" none]
    payments := [] }

/-- Database for the C6 witness: one site `a`. -/
def c6DB : DB := { sites := [{ id := "a", name := "n", domain := "d", user_id := none }], events := [], payments := [] }

/-- Events for the C7 witness: two visitors reach step `/a`, one of them
also reaches step `/b`. -/
def c7Events : List Event :=
  [mkEvent "s1" "v1" "x1" 10 "/a" none, mkEvent "s1" "v2" "x2" 20 "/a" none,
   mkEvent "s1" "v1" "x1" 30 "/b" none]

/-- Steps for the C7 witness. -/
def c7Steps : List FunnelStep := [{ type := "pageview", value := "/a" }, { type := "pageview", value := "/b" }]

/-- Database for the C8 counterexample: its only event is a pageview whose
client-supplied timestamp lies far after the end of every trailing window
ending at `now = 604800`. -/
def c8DB : DB :=
  { sites := [exOwnedSite], events := [mkEvent "s1" "v1" "x1" 999999999 "/" none], payments := [] }

theorem funnelFrom_length (events : List Event) (start stop : ℕ) :
    ∀ (rest : List FunnelStep) (v : Finset String),
      (funnelFrom events start stop v rest).length = rest.length := by
  intro rest
  induction rest with
  | nil => intro v; rfl
  | cons st rest ih => intro v; simp [funnelFrom, ih]

theorem funnelFrom_get (events : List Event) (start stop : ℕ) :
    ∀ (rest : List FunnelStep) (v : Finset String) (i : ℕ)
      (h1 : i < (funnelFrom events start stop v rest).length) (h2 : i < rest.length),
      (funnelFrom events start stop v rest).get ⟨i, h1⟩ =
        { step_label := (rest.get ⟨i, h2⟩).value
          count := (survivors events start stop v rest (i + 1)).card
          dropoff := dropoffCalc (survivors events start stop v rest i).card
            (survivors events start stop v rest (i + 1)).card } := by
  intro rest
  induction rest with
  | nil => intro v i h1 h2; simp at h2
  | cons st rest ih =>
    intro v i h1 h2
    cases i with
    | zero => simp [funnelFrom, survivors]
    | succ k =>
      have h1k : k < (funnelFrom events start stop
          (v ∩ stepVisitors events start stop st) rest).length := by
        rw [funnelFrom_length] at h1 ⊢
        exact Nat.lt_of_succ_lt_succ h1
      have h2k : k < rest.length := Nat.lt_of_succ_lt_succ h2
      have hcons : funnelFrom events start stop v (st :: rest) =
          { step_label := st.value
            count := (v ∩ stepVisitors events start stop st).card
            dropoff := dropoffCalc v.card (v ∩ stepVisitors events start stop st).card } ::
            funnelFrom events start stop (v ∩ stepVisitors events start stop st) rest := by
        simp [funnelFrom]
      rw [List.get_of_eq hcons, List.get_cons_succ, ih _ k h1k h2k]
      simp [survivors]

theorem survivors_nil (events : List Event) (start stop : ℕ) (v : Finset String) (i : ℕ) :
    survivors events start stop v [] i = v := by
  cases i <;> rfl

theorem survivors_succ_subset (events : List Event) (start stop : ℕ) :
    ∀ (rest : List FunnelStep) (v : Finset String) (i : ℕ),
      survivors events start stop v rest (i + 1) ⊆ survivors events start stop v rest i := by
  intro rest
  induction rest with
  | nil => intro v i; simp [survivors, survivors_nil]
  | cons st rest ih =>
    intro v i
    cases i with
    | zero =>
      simp only [survivors]
      cases rest with
      | nil => exact Finset.inter_subset_left
      | cons s2 r2 => exact Finset.inter_subset_left
    | succ k => simp only [survivors]; exact ih (v ∩ stepVisitors events start stop st) k

theorem survivors_subset_of_le (events : List Event) (start stop : ℕ)
    (rest : List FunnelStep) (v : Finset String) {i j : ℕ} (hij : i ≤ j) :
    survivors events start stop v rest j ⊆ survivors events start stop v rest i := by
  induction hij with
  | refl => exact Finset.Subset.refl _
  | step h ih =>
    exact Finset.Subset.trans (survivors_succ_subset events start stop rest v _) ih

/-- C7: for every funnel query with at least 2 steps, the output has one
entry per input step; the first entry has dropoff 0; the entry after step i
has count `|V(i+1)|` and, when `|Vi| ≠ 0`, dropoff
`round((|Vi| - |V(i+1)|) / |Vi| * 100)`; and once some surviving visitor
set is empty every later entry has count 0 and dropoff 100 — the analyzer
is a total function, so no division-by-zero error can occur. -/
theorem c7_funnel_spec (events : List Event) (start stop : ℕ) (steps : List FunnelStep)
    (h2 : 2 ≤ steps.length) :
    ∃ rows, funnel events start stop steps = Except.ok rows ∧
      rows.length = steps.length ∧
      (∀ h0 : 0 < rows.length, (rows.get ⟨0, h0⟩).dropoff = 0) ∧
      (∀ i, ∀ hi : i + 1 < rows.length,
        (rows.get ⟨i + 1, hi⟩).count = (funnelSet events start stop steps (i + 1)).card ∧
        ((funnelSet events start stop steps i).card ≠ 0 →
          (rows.get ⟨i + 1, hi⟩).dropoff =
            jsRound ((((funnelSet events start stop steps i).card : ℚ) -
                ((funnelSet events start stop steps (i + 1)).card : ℚ)) /
              ((funnelSet events start stop steps i).card : ℚ) * 100))) ∧
      (∀ i j, ∀ hj : j < rows.length, funnelSet events start stop steps i = ∅ → i < j →
        (rows.get ⟨j, hj⟩).count = 0 ∧ (rows.get ⟨j, hj⟩).dropoff = 100) := by
  match steps, h2 with
  | s1 :: s2 :: rest, _ =>
    set v0 := stepVisitors events start stop s1 with hv0
    refine ⟨{ step_label := s1.value, count := v0.card, dropoff := 0 } ::
      funnelFrom events start stop v0 (s2 :: rest), rfl, ?_, ?_, ?_, ?_⟩
    · simp [funnelFrom_length]
    · intro h0; rfl
    · intro i hi
      have hlen : i < (funnelFrom events start stop v0 (s2 :: rest)).length := by
        simpa using Nat.lt_of_succ_lt_succ hi
      have hlen2 : i < (s2 :: rest).length := by
        rw [funnelFrom_length] at hlen; exact hlen
      rw [List.get_cons_succ, funnelFrom_get events start stop _ _ i hlen hlen2]
      have hset : ∀ k, funnelSet events start stop (s1 :: s2 :: rest) k =
          survivors events start stop v0 (s2 :: rest) k := fun k => rfl
      refine ⟨by rw [hset], ?_⟩
      intro hcard
      rw [hset, hset] at *
      simp only [dropoffCalc, if_neg hcard]
    · intro i j hj hempty hij
      obtain ⟨k, rfl⟩ : ∃ k, j = k + 1 := ⟨j - 1, by omega⟩
      have hlen : k < (funnelFrom events start stop v0 (s2 :: rest)).length := by
        simpa using Nat.lt_of_succ_lt_succ hj
      have hlen2 : k < (s2 :: rest).length := by
        rw [funnelFrom_length] at hlen; exact hlen
      rw [List.get_cons_succ, funnelFrom_get events start stop _ _ k hlen hlen2]
      have hset : ∀ m, funnelSet events start stop (s1 :: s2 :: rest) m =
          survivors events start stop v0 (s2 :: rest) m := fun m => rfl
      rw [hset] at hempty
      have hk : survivors events start stop v0 (s2 :: rest) k = ∅ := by
        have hsub := survivors_subset_of_le events start stop (s2 :: rest) v0
          (i := i) (j := k) (by omega)
        rw [hempty] at hsub
        exact Finset.subset_empty.mp hsub
      have hk1 : survivors events start stop v0 (s2 :: rest) (k + 1) = ∅ := by
        have hsub := survivors_subset_of_le events start stop (s2 :: rest) v0
          (i := i) (j := k + 1) (by omega)
        rw [hempty] at hsub
        exact Finset.subset_empty.mp hsub
      constructor
      · simp [hk1]
      · simp [hk, dropoffCalc]

theorem insertSorted_perm {α : Type} (le : α → α → Bool) (a : α) :
    ∀ l : List α, (insertSorted le a l).Perm (a :: l) := by
  intro l
  induction l with
  | nil => exact List.Perm.refl _
  | cons b t ih =>
    cases hc : le a b with
    | true => simp [insertSorted, hc]
    | false =>
      simp only [insertSorted, hc, Bool.false_eq_true, if_false]
      exact (ih.cons b).trans (List.Perm.swap a b t)

theorem sortBy_perm {α : Type} (le : α → α → Bool) :
    ∀ l : List α, (sortBy le l).Perm l := by
  intro l
  induction l with
  | nil => exact List.Perm.refl _
  | cons a t ih =>
    exact (insertSorted_perm le a (sortBy le t)).trans (ih.cons a)

theorem sortBy_map_sum {α : Type} (le : α → α → Bool) (f : α → ℚ) (l : List α) :
    ((sortBy le l).map f).sum = (l.map f).sum :=
  ((sortBy_perm le l).map f).sum_eq

/-- C1, counterexample: in the SQLite revision the stats endpoint takes no
requesting identity and performs no ownership check at all, so a query for
site `s1` — owned by user `u2` — issued by anyone returns the full
event data of that site instead of failing with an access-denial error. -/
theorem c1_sqlite_counterexample :
    (∀ s ∈ c1DB.sites, s.user_id = some "u2") ∧
    (sqliteStats c1DB "s1" none 100).total_pageviews = 1 ∧
    (sqliteStats c1DB "s1" none 100).unique_visitors = 1 := by
  refine ⟨by decide, ?_, ?_⟩ <;> decide

/-- C1, amended: in the PostgreSQL revision every aggregation endpoint it
defines (stats, timeseries, pages, sources, realtime, revenue — there is no
devices endpoint in that revision) first runs `checkSiteAccess`, so a
request for a site owned by `u2` issued by a different authenticated user
`u1` yields the access-denied error and no data; the SQLite revision
performs no such check (see the counterexample). -/
theorem c1_pg_access_denied (db : DB) (u1 u2 siteId : String) (period : Option String)
    (limit now : ℕ)
    (hown : ∀ s ∈ db.sites, s.id = siteId → s.user_id = some u2) (hne : u1 ≠ u2) :
    pgStats db u1 siteId period now = .error .accessDenied ∧
    pgTimeseries db u1 siteId period now = .error .accessDenied ∧
    pgPages db u1 siteId period limit now = .error .accessDenied ∧
    pgSources db u1 siteId period limit now = .error .accessDenied ∧
    pgRealtime db u1 siteId now = .error .accessDenied ∧
    pgRevenue db u1 siteId period now = .error .accessDenied := by
  have hfalse : checkSiteAccess db siteId u1 = false := by
    rw [checkSiteAccess, List.any_eq_false]
    intro s hs
    simp only [decide_eq_true_eq, not_and]
    intro h1 h2
    have h3 := hown s hs h1
    rw [h3] at h2
    exact hne (Option.some.inj h2).symm
  refine ⟨?_, ?_, ?_, ?_, ?_, ?_⟩ <;>
    simp [pgStats, pgTimeseries, pgPages, pgSources, pgRealtime, pgRevenue, hfalse]

/-- C1, witness for the amended theorem at a concrete database. -/
theorem c1_pg_access_denied_witness :
    pgStats c1DB "u1" "s1" none 100 = .error .accessDenied ∧
    pgTimeseries c1DB "u1" "s1" none 100 = .error .accessDenied ∧
    pgPages c1DB "u1" "s1" none 10 100 = .error .accessDenied ∧
    pgSources c1DB "u1" "s1" none 10 100 = .error .accessDenied ∧
    pgRealtime c1DB "u1" "s1" 100 = .error .accessDenied ∧
    pgRevenue c1DB "u1" "s1" none 100 = .error .accessDenied :=
  c1_pg_access_denied c1DB "u1" "u2" "s1" none 10 100 (by decide) (by decide)

/-- C2: the revenue-by-source aggregation does not conserve total revenue.
On `c2DB` — a single payment of amount 10 whose visitor has two events —
the LEFT JOIN fans out to one row per matching event, so
`sum(bySource.revenue)` evaluates to 20 while the sum of all payment
amounts of the site in the window is 10; the unattributed bucket the join
produces is the SQL NULL source, not a synthetic `"unknown"` label. -/
theorem c2_revenue_fanout_eval :
    ((sqliteRevenue c2DB "s1" none 100).bySource.map SourceRevenue.revenue).sum = 20 ∧
    (c2DB.payments.map Payment.amount).sum = 10 ∧
    ((20 : ℚ) ≠ 10) := by
  refine ⟨?_, ?_, by norm_num⟩
  · have hstart : (100 : ℕ) - parsePeriod none * 86400 = 0 := by decide
    have hrows : revenueJoinRows c2DB.events c2DB.payments "s1" 0 =
        [(some "google", (10 : ℚ)), (some "twitter", 10)] := by decide
    have hkeys : (([(some "google", (10 : ℚ)), (some "twitter", 10)].map Prod.fst).dedup) =
        [some "google", some "twitter"] := by decide
    have hg : [(some "google", (10 : ℚ)), (some "twitter", 10)].filter
        (fun r => decide (r.1 = some "google")) = [(some "google", (10 : ℚ))] := by decide
    have ht : [(some "google", (10 : ℚ)), (some "twitter", 10)].filter
        (fun r => decide (r.1 = some "twitter")) = [(some "twitter", (10 : ℚ))] := by decide
    show ((revenueBySource c2DB.events c2DB.payments "s1"
      (100 - parsePeriod none * 86400)).map SourceRevenue.revenue).sum = 20
    rw [hstart, revenueBySource, sortBy_map_sum, revenueGroups]
    rw [hrows, hkeys]
    simp only [List.map_cons, List.map_nil, hg, ht]
    norm_num
  · show ([(10 : ℚ)]).sum = 10
    norm_num

/-- C3: `calcChange` computes exactly the delta of the spec — the percent change
`round((current - previous) / previous * 100, 1)` for a non-zero previous
value, and 0 whenever the previous value is 0 (no division-by-zero error:
the guard returns before dividing). -/
theorem c3_calcChange_matches_spec :
    (∀ current previous : ℚ, calcChange current previous = deltaSpec current previous) ∧
    (∀ x : ℚ, calcChange x 0 = 0) := by
  constructor
  · intro current previous
    rw [calcChange, deltaSpec, roundTo1]
  · intro x
    rw [calcChange, if_pos rfl]

/-- C4: the timeseries endpoint omits zero-event calendar days.  On `c4DB`,
a `7d` request whose window spans 7 calendar days but whose events all fall
on one day returns exactly one row (the counts of that day) instead of one row
per calendar day of the window. -/
theorem c4_timeseries_missing_days_eval :
    sqliteTimeseries c4DB "s1" (some "7d") 604800 =
      [{ date := 0, visitors := 1, pageviews := 2, sessions := 1 }] ∧
    (sqliteTimeseries c4DB "s1" (some "7d") 604800).length = 1 ∧ (1 : ℕ) ≠ 7 := by
  refine ⟨by decide, by decide, by decide⟩

/-- C5, counterexample: a pageview with no referrer but explicit
`utm_source=newsletter&utm_medium=email` produces an event record whose
classified `source`/`medium` are `direct`/`none` — the UTM values are not
used for the classified fields, contradicting "UTM wins over inference". -/
theorem c5_utm_not_override_counterexample :
    (sendEventPayload "s1" "v1" "x1" "pageview" ""
        [("utm_source", "newsletter"), ("utm_medium", "email")]).source = "direct" ∧
    (sendEventPayload "s1" "v1" "x1" "pageview" ""
        [("utm_source", "newsletter"), ("utm_medium", "email")]).medium = "none" ∧
    (sendEventPayload "s1" "v1" "x1" "pageview" ""
        [("utm_source", "newsletter"), ("utm_medium", "email")]).utm_source = some "newsletter" ∧
    (sendEventPayload "s1" "v1" "x1" "pageview" ""
        [("utm_source", "newsletter"), ("utm_medium", "email")]).utm_medium = some "email" ∧
    ("direct" : String) ≠ "newsletter" ∧ ("none" : String) ≠ "email" := by
  refine ⟨by decide, by decide, by decide, by decide, by decide, by decide⟩

/-- C5, amended: UTM parameters are captured verbatim, but only into the
dedicated `utm_source`/`utm_medium` payload fields; the classified
`source`/`medium` fields come from the referrer classification alone — the
object spread `{...referrer, ...utm}` merges disjoint key sets, so UTM
never overrides them, whatever the query string contains. -/
theorem c5_utm_fields_verbatim (siteId visitorId sessionId eventType docReferrer : String)
    (search : List (String × String)) :
    (sendEventPayload siteId visitorId sessionId eventType docReferrer search).utm_source =
      queryGet search "utm_source" ∧
    (sendEventPayload siteId visitorId sessionId eventType docReferrer search).utm_medium =
      queryGet search "utm_medium" ∧
    (sendEventPayload siteId visitorId sessionId eventType docReferrer search).source =
      (getReferrer docReferrer).source ∧
    (sendEventPayload siteId visitorId sessionId eventType docReferrer search).medium =
      (getReferrer docReferrer).medium ∧
    (sendEventPayload siteId visitorId sessionId eventType docReferrer search).source =
      (sendEventPayload siteId visitorId sessionId eventType docReferrer []).source ∧
    (sendEventPayload siteId visitorId sessionId eventType docReferrer search).medium =
      (sendEventPayload siteId visitorId sessionId eventType docReferrer []).medium :=
  ⟨rfl, rfl, rfl, rfl, rfl, rfl⟩

/-- C6: an event whose `site_id` resolves to no existing site is rejected
by `/collect` — the declared foreign key makes the INSERT fail, the handler
reports the failure, and the event log is left unchanged (the event is
neither stored nor dropped into a default bucket). -/
theorem c6_unknown_site_rejected (db : DB) (e : Event)
    (h : ∀ s ∈ db.sites, s.id ≠ e.site_id) :
    collect db e = (CollectResult.failure, db) := by
  have hfalse : db.sites.any (fun s => decide (s.id = e.site_id)) = false := by
    rw [List.any_eq_false]
    intro s hs
    simpa using h s hs
  rw [collect, hfalse]
  rfl

/-- C6, witness: collecting an event for the unknown site `b` against a
database whose only site is `a` fails and stores nothing. -/
theorem c6_unknown_site_rejected_witness :
    (∀ s ∈ c6DB.sites, s.id ≠ "b") ∧
    collect c6DB (mkEvent "b" "v1" "x1" 10 "/" none) = (CollectResult.failure, c6DB) :=
  ⟨by decide, c6_unknown_site_rejected c6DB (mkEvent "b" "v1" "x1" 10 "/" none) (by decide)⟩

/-- C8, counterexample: the spec defines W as an inclusive-start,
exclusive-end trailing window ending now, but the stats SELECT filters only
`timestamp >= start` with no upper bound.  On `c8DB`, a `7d` query at
`now = 604800` has the window end at 604800, every stored event is
time-stamped after that end (outside W), yet `pageviews` is 1 instead of 0
— an event outside W is counted, refuting "counts no event outside W". -/
theorem c8_window_counterexample :
    c8DB.events.all (fun e => decide (604800 < e.timestamp)) = true ∧
    (sqliteStats c8DB "s1" (some "7d") 604800).total_pageviews = 1 ∧ (1 : ℕ) ≠ 0 := by
  refine ⟨by decide, by decide, by decide⟩

/-- C8, amended: the realized window of the overview query is bounded below
only — the SELECT filters `site_id`, `event_type = "pageview"` and
`timestamp >= start`, with no upper bound, so events time-stamped at or
after the window end (client clocks are unverified) are also counted.
Over that lower-bounded filter the counters are exact: appending an event
raises `pageviews` by exactly 1 when it is a pageview of the site with
`timestamp >= start` and by 0 otherwise, and `unique_visitors`/`sessions`
are the cardinalities of the distinct visitor and session ids of the same
filtered pageview rows. -/
theorem c8_overview_counts (events : List Event) (siteId : String) (start : ℕ) (e : Event) :
    (statsQuery (events ++ [e]) siteId start).total_pageviews =
      (statsQuery events siteId start).total_pageviews +
        (if pageviewMatch siteId start e then 1 else 0) ∧
    (statsQuery events siteId start).unique_visitors =
      ((pageviewsIn events siteId start).map Event.visitor_id).toFinset.card ∧
    (statsQuery events siteId start).total_sessions =
      ((pageviewsIn events siteId start).map Event.session_id).toFinset.card := by
  refine ⟨?_, ?_, ?_⟩
  · show (pageviewsIn (events ++ [e]) siteId start).length = _
    rw [pageviewsIn, List.filter_append]
    rw [List.length_append]
    cases h : pageviewMatch siteId start e <;>
      simp [pageviewsIn, statsQuery, List.filter, h]
  · show countDistinct ((pageviewsIn events siteId start).map Event.visitor_id) = _
    rw [List.card_toFinset, countDistinct]
  · show countDistinct ((pageviewsIn events siteId start).map Event.session_id) = _
    rw [List.card_toFinset, countDistinct]

/-- C9: the classifier maps a Google search referrer to google/organic, the
absent referrer to direct/none, a Hacker News referrer to
hackernews/referral, and every referrer the URL parser rejects to
unknown/unknown via the catch block — a total function, so it never
throws. -/
theorem c9_classifier_cases :
    getReferrer "https://www.google.com/search?q=x" =
      { source := "google", medium := "organic",
        referrer := some "https://www.google.com/search?q=x" } ∧
    getReferrer "" = { source := "direct", medium := "none", referrer := none } ∧
    getReferrer "https://news.ycombinator.com/item" =
      { source := "hackernews", medium := "referral",
        referrer := some "https://news.ycombinator.com/item" } ∧
    (∀ ref : String, ref ≠ "" → parseURLHost ref = none →
      getReferrer ref = { source := "unknown", medium := "unknown", referrer := some ref }) := by
  refine ⟨by decide, by decide, by decide, ?_⟩
  intro ref h hnone
  rw [getReferrer, if_neg h, hnone]

/-- C9, witness for the malformed-referrer clause at a concrete input. -/
theorem c9_classifier_cases_witness :
    ("not a url" : String) ≠ "" ∧ parseURLHost "not a url" = none ∧
    getReferrer "not a url" =
      { source := "unknown", medium := "unknown", referrer := some "not a url" } :=
  ⟨by decide, by decide, c9_classifier_cases.2.2.2 "not a url" (by decide) (by decide)⟩

/-- C10: the period parameter maps to 7 days exactly for `7d`, to 90 days
exactly for `90d`, and every other value — absent or arbitrary — silently
yields 30 days; `parsePeriod` is total, so no period value is rejected. -/
theorem c10_period_parsing (period : Option String) :
    (parsePeriod period = 7 ↔ period = some "7d") ∧
    (parsePeriod period = 90 ↔ period = some "90d") ∧
    (period ≠ some "7d" → period ≠ some "90d" → parsePeriod period = 30) := by
  cases period with
  | none =>
    refine ⟨?_, ?_, ?_⟩ <;> simp [parsePeriod]
  | some s =>
    by_cases h7 : s = "7d"
    · subst h7
      refine ⟨?_, ?_, ?_⟩ <;> simp [parsePeriod]
    · by_cases h90 : s = "90d"
      · subst h90
        refine ⟨?_, ?_, ?_⟩ <;> simp [parsePeriod]
      · refine ⟨?_, ?_, ?_⟩ <;> simp [parsePeriod, h7, h90]

/-- C10, witness: an unsupported period value yields the 30-day window. -/
theorem c10_period_parsing_witness :
    some "24h" ≠ some "7d" ∧ some "24h" ≠ some "90d" ∧ parsePeriod (some "24h") = 30 :=
  ⟨by decide, by decide,
    (c10_period_parsing (some "24h")).2.2 (by decide) (by decide)⟩

/-- C7, witness: the funnel properties at a concrete two-step funnel. -/
theorem c7_funnel_spec_witness :
    2 ≤ c7Steps.length ∧
    (∃ rows, funnel c7Events 0 100 c7Steps = Except.ok rows ∧
      rows.length = c7Steps.length ∧
      (∀ h0 : 0 < rows.length, (rows.get ⟨0, h0⟩).dropoff = 0) ∧
      (∀ i, ∀ hi : i + 1 < rows.length,
        (rows.get ⟨i + 1, hi⟩).count = (funnelSet c7Events 0 100 c7Steps (i + 1)).card ∧
        ((funnelSet c7Events 0 100 c7Steps i).card ≠ 0 →
          (rows.get ⟨i + 1, hi⟩).dropoff =
            jsRound ((((funnelSet c7Events 0 100 c7Steps i).card : ℚ) -
                ((funnelSet c7Events 0 100 c7Steps (i + 1)).card : ℚ)) /
              ((funnelSet c7Events 0 100 c7Steps i).card : ℚ) * 100))) ∧
      (∀ i j, ∀ hj : j < rows.length, funnelSet c7Events 0 100 c7Steps i = ∅ → i < j →
        (rows.get ⟨j, hj⟩).count = 0 ∧ (rows.get ⟨j, hj⟩).dropoff = 100)) :=
  ⟨by decide, c7_funnel_spec c7Events 0 100 c7Steps (by decide)⟩
